import Mathlib

/-!
Shallow embedding of `store/store.go` from kube2iam: an in-memory store
mapping pod IP addresses to IAM roles and namespaces, with per-namespace
regexp restrictions on which roles may be assumed.

Modelling choices:
* The three Go maps become total functions `String → Option _`; an absent
  key is `none`.  Assigning `m[k] = v` is `mapUpdate`, `delete(m, k)` is
  `mapDelete`.  This keeps key presence observable (Go distinguishes an
  absent key from a key stored with a nil slice).
* A compiled `*regexp.Regexp` is determined by its source string
  (`regexp.Compile` is deterministic and `re.String()` returns the source),
  so a compiled pattern is represented by that canonical string and the
  regexp library by a `RegexEngine`: `compileOk` says whether a source
  string compiles, `matchString` gives the result of `MatchString` as a
  function of the source and the candidate.
* The `iam.Client` collaborator (the identity normalizer) appears only
  through its `RoleARN` method, kept as the function field `roleARN` of
  the store, mirroring the `iam` field of the Go struct.
* The `sync.RWMutex` field has no sequential content and is omitted; the
  operations are modelled as atomic state transformers.
-/

namespace Kube2iam

/-- Pointwise map assignment, the model of the Go statement `m[k] = v`. -/
def mapUpdate {α : Type} (m : String → Option α) (k : String) (v : α) :
    String → Option α :=
  fun k2 => if k2 = k then some v else m k2

/-- Pointwise map removal, the model of the Go statement `delete(m, k)`. -/
def mapDelete {α : Type} (m : String → Option α) (k : String) :
    String → Option α :=
  fun k2 => if k2 = k then none else m k2

/-- Model of the Go `regexp` package as used by the store: whether a source
string compiles, and what `MatchString` returns as a function of the source
string and the candidate. -/
structure RegexEngine where
  compileOk : String → Bool
  matchString : String → String → Bool

/-- The `Store` struct of `store.go`.  `rolesRegexpByNamespace` holds, per
namespace, the ordered list of canonical source strings of the compiled
regexps.  The `mutex` field is omitted; the `iam` client appears as the
`roleARN` function. -/
structure Store where
  defaultRole : String
  IamRoleKey : String
  NamespaceKey : String
  namespaceRestriction : Bool
  rolesByIP : String → Option String
  rolesRegexpByNamespace : String → Option (List String)
  namespaceByIP : String → Option String
  roleARN : String → String

/-- `Store.Get`: returns the iam role based on IP address, falling back to
the default role when one is configured, and failing otherwise. -/
def Store.Get (s : Store) (IP : String) : Except String String :=
  match s.rolesByIP IP with
  | some role => Except.ok role
  | none =>
    if s.defaultRole ≠ "" then Except.ok s.defaultRole
    else Except.error ("Unable to find role for IP " ++ IP)

/-- `Store.AddRoleToIP` (the pod argument contributes only `pod.Status.PodIP`,
taken here directly as `ip`). -/
def Store.AddRoleToIP (s : Store) (ip : String) (role : String) : Store :=
  { s with rolesByIP := mapUpdate s.rolesByIP ip role }

/-- `Store.AddNamespaceToIP` (the pod argument contributes `pod.GetNamespace()`
and `pod.Status.PodIP`, taken here directly as `ns` and `ip`). -/
def Store.AddNamespaceToIP (s : Store) (ip : String) (ns : String) : Store :=
  { s with namespaceByIP := mapUpdate s.namespaceByIP ip ns }

/-- `Store.DeleteIP`: deletes the IP address from both caches. -/
def Store.DeleteIP (s : Store) (ip : String) : Store :=
  { s with
    rolesByIP := mapDelete s.rolesByIP ip
    namespaceByIP := mapDelete s.namespaceByIP ip }

/-- `Store.AddRoleToNamespace`: normalizes the pattern through `RoleARN`,
deduplicates against the existing collection by source string, compiles the
pattern (returning early, with no state change, when compilation fails) and
writes the collection back into the map. -/
def Store.AddRoleToNamespace (s : Store) (re : RegexEngine) (ns : String)
    (regexpForRole : String) : Store :=
  let regexpRoleARN := s.roleARN regexpForRole
  let ar := (s.rolesRegexpByNamespace ns).getD []
  if ar.contains regexpRoleARN then
    { s with rolesRegexpByNamespace := mapUpdate s.rolesRegexpByNamespace ns ar }
  else if re.compileOk regexpRoleARN then
    { s with rolesRegexpByNamespace :=
        mapUpdate s.rolesRegexpByNamespace ns (ar ++ [regexpRoleARN]) }
  else
    s

/-- `Store.RemoveRoleFromNamespace`: normalizes the pattern through `RoleARN`,
removes the first entry with that source string from the collection, and
unconditionally writes the collection back into the map. -/
def Store.RemoveRoleFromNamespace (s : Store) (ns : String)
    (regexpForRole : String) : Store :=
  let regexpRoleARN := s.roleARN regexpForRole
  let ar := (s.rolesRegexpByNamespace ns).getD []
  { s with rolesRegexpByNamespace :=
      mapUpdate s.rolesRegexpByNamespace ns (ar.erase regexpRoleARN) }

/-- `Store.DeleteNamespace`: removes all role mappings from a namespace. -/
def Store.DeleteNamespace (s : Store) (ns : String) : Store :=
  { s with rolesRegexpByNamespace := mapDelete s.rolesRegexpByNamespace ns }

/-- `Store.checkRoleForNamespace`: scans the collection of the namespace in
order and reports whether some regexp matches the role. -/
def Store.checkRoleForNamespace (s : Store) (re : RegexEngine) (role : String)
    (ns : String) : Bool :=
  ((s.rolesRegexpByNamespace ns).getD []).any (fun r => re.matchString r role)

/-- `Store.CheckNamespaceRestriction`: looks up the namespace of the IP (empty
string when unknown), early-outs true when restriction is off or the role is
the normalized default role, and otherwise scans the namespace collection. -/
def Store.CheckNamespaceRestriction (s : Store) (re : RegexEngine)
    (role : String) (ip : String) : Bool × String :=
  let ns := (s.namespaceByIP ip).getD ""
  if !s.namespaceRestriction then (true, ns)
  else if role = s.roleARN s.defaultRole then (true, ns)
  else (s.checkRoleForNamespace re role ns, ns)

/-- `Store.DumpRolesByIP`: returns the roles-by-IP mapping itself. -/
def Store.DumpRolesByIP (s : Store) : String → Option String :=
  s.rolesByIP

/-- `Store.DumpRolesByNamespace`, per namespace: for a namespace present in
the map, the Go loop body allocates `make([]string, len(listOfRegexp))` (a
slice already holding `len` empty strings) and then appends the source string
of every regexp to it; for an absent namespace there is no entry. -/
def Store.DumpRolesByNamespace (s : Store) (ns : String) : Option (List String) :=
  (s.rolesRegexpByNamespace ns).map (fun listOfRegexp =>
    listOfRegexp.foldl (fun listOfRoles roleRegexp => listOfRoles ++ [roleRegexp])
      (List.replicate listOfRegexp.length ""))

/-- `Store.DumpNamespaceByIP`: returns the namespaces-by-IP mapping itself. -/
def Store.DumpNamespaceByIP (s : Store) : String → Option String :=
  s.namespaceByIP

/-- `NewStore`: all three maps start empty. -/
def NewStore (key : String) (defaultRole : String) (namespaceRestriction : Bool)
    (namespaceKey : String) (roleARN : String → String) : Store :=
  { defaultRole := defaultRole
    IamRoleKey := key
    NamespaceKey := namespaceKey
    namespaceRestriction := namespaceRestriction
    rolesByIP := fun _ => none
    rolesRegexpByNamespace := fun _ => none
    namespaceByIP := fun _ => none
    roleARN := roleARN }

/-!  Concrete fixtures used by witnesses and counterexamples. -/

/-- A regex engine in which every pattern compiles and a pattern matches
exactly the candidate equal to its source string (an exact-match variant of
the matching capability; only the store logic, never the regex language, is
under test). -/
def exactEngine : RegexEngine :=
  { compileOk := fun _ => true
    matchString := fun p r => p == r }

/-- A regex engine recording that the source string `(` does not compile
(in Go, `regexp.Compile("(")` fails with a missing-closing-paren error),
while every other pattern compiles and matches only itself. -/
def parenEngine : RegexEngine :=
  { compileOk := fun p => p != "("
    matchString := fun p r => p == r }

/-- A fresh store with namespace restriction on and no default role; the
normalizer is the identity (roles are supplied already canonical). -/
def emptyStore : Store :=
  NewStore "iam.amazonaws.com/role" "" true "iam.amazonaws.com/allowed-roles" id

/-- A fresh store like `emptyStore` but with a configured default role. -/
def fallbackStore : Store :=
  NewStore "iam.amazonaws.com/role" "role:default" true
    "iam.amazonaws.com/allowed-roles" id

/-- The scenario store of the spec: restriction on, default role
`role:default`, address `A1` assigned role `role:payments-writer` in
namespace `payments`, and that namespace granted one pattern. -/
def demoStore : Store :=
  ((fallbackStore.AddRoleToIP "A1" "role:payments-writer").AddNamespaceToIP
      "A1" "payments").AddRoleToNamespace exactEngine "payments"
    "role:payments-writer"

/-- A store whose namespace `t` holds the three patterns `x`, `p`, `y`. -/
def revokeStore : Store :=
  ((emptyStore.AddRoleToNamespace exactEngine "t" "x").AddRoleToNamespace
      exactEngine "t" "p").AddRoleToNamespace exactEngine "t" "y"

/-- A store with one recorded address and no default role. -/
def popStore : Store :=
  (emptyStore.AddRoleToIP "A1" "role:r").AddNamespaceToIP "A1" "payments"

/-!  Helper lemmas about the map model. -/

theorem mapUpdate_same {α : Type} (m : String → Option α) (k : String) (v : α) :
    mapUpdate m k v k = some v := by
  simp [mapUpdate]

theorem mapUpdate_other {α : Type} (m : String → Option α) (k k2 : String)
    (v : α) (h : k2 ≠ k) : mapUpdate m k v k2 = m k2 := by
  simp [mapUpdate, h]

theorem mapUpdate_overwrite {α : Type} (m : String → Option α) (k : String)
    (v w : α) : mapUpdate (mapUpdate m k v) k w = mapUpdate m k w := by
  funext k2
  simp only [mapUpdate]
  split <;> rfl

theorem mapUpdate_self {α : Type} (m : String → Option α) (k : String) (v : α)
    (h : m k = some v) : mapUpdate m k v = m := by
  funext k2
  simp only [mapUpdate]
  split
  · next heq => rw [heq, h]
  · rfl

theorem mapDelete_absent {α : Type} (m : String → Option α) (k : String)
    (h : m k = none) : mapDelete m k = m := by
  funext k2
  simp only [mapDelete]
  split
  · next heq => rw [heq, h]
  · rfl

/-!  Claims. -/

theorem getD_eq_some_of_contains {o : Option (List String)} {a : String}
    (h : (o.getD []).contains a = true) : o = some (o.getD []) := by
  cases o with
  | none => simp at h
  | some l => rfl

/-- Claim C3: for every address and role, immediately after
`AddRoleToIP address role` a call to `Get address` returns exactly that role
with no error, regardless of any assignment previously recorded for that
address (last write wins, since the universally quantified store `s` may
already hold any assignment). -/
theorem C3_record_then_resolve (s : Store) (ip : String) (role : String) :
    (s.AddRoleToIP ip role).Get ip = Except.ok role := by
  simp [Store.AddRoleToIP, Store.Get, mapUpdate]

/-- Claim C2: for every address absent from the roles-by-IP map, `Get`
returns the configured default role when one is configured (non-empty) and
fails with the not-found error exactly when no default role is configured;
and `Get` never fails for an address that has a recorded assignment. -/
theorem C2_resolve_absent (s : Store) (ip : String) :
    (s.rolesByIP ip = none →
      (s.defaultRole ≠ "" → s.Get ip = Except.ok s.defaultRole) ∧
      (s.defaultRole = "" →
        s.Get ip = Except.error ("Unable to find role for IP " ++ ip))) ∧
    (∀ role, s.rolesByIP ip = some role → s.Get ip = Except.ok role) := by
  constructor
  · intro habs
    constructor
    · intro hdef
      simp [Store.Get, habs, hdef]
    · intro hdef
      simp [Store.Get, habs, hdef]
  · intro role hrec
    simp [Store.Get, hrec]

/-- Witness for C2 at concrete inputs: an unknown address with no default
configured fails, the same address with a default configured resolves to the
default, and a recorded address resolves to its recorded role. -/
theorem C2_witness :
    emptyStore.Get "10.0.0.1" =
      Except.error ("Unable to find role for IP " ++ "10.0.0.1") ∧
    fallbackStore.Get "10.0.0.1" = Except.ok "role:default" ∧
    demoStore.Get "A1" = Except.ok "role:payments-writer" := by
  refine ⟨?_, ?_, ?_⟩
  · exact ((C2_resolve_absent emptyStore "10.0.0.1").1 rfl).2 rfl
  · exact ((C2_resolve_absent fallbackStore "10.0.0.1").1 rfl).1 (by decide)
  · exact (C2_resolve_absent demoStore "A1").2 "role:payments-writer" (by decide)

/-- Claim C4: `DeleteIP` removes the address from both the roles-by-IP and
the namespace-by-IP maps, is a no-op on a map in which the address is absent,
and afterwards `Get` on that address with no default role configured fails
with the not-found error. -/
theorem C4_forget (s : Store) (ip : String) :
    (s.DeleteIP ip).rolesByIP ip = none ∧
    (s.DeleteIP ip).namespaceByIP ip = none ∧
    (s.rolesByIP ip = none → (s.DeleteIP ip).rolesByIP = s.rolesByIP) ∧
    (s.namespaceByIP ip = none →
      (s.DeleteIP ip).namespaceByIP = s.namespaceByIP) ∧
    (s.defaultRole = "" →
      (s.DeleteIP ip).Get ip =
        Except.error ("Unable to find role for IP " ++ ip)) := by
  refine ⟨by simp [Store.DeleteIP, mapDelete], by simp [Store.DeleteIP, mapDelete],
    ?_, ?_, ?_⟩
  · intro h
    exact mapDelete_absent s.rolesByIP ip h
  · intro h
    exact mapDelete_absent s.namespaceByIP ip h
  · intro hdef
    simp [Store.DeleteIP, Store.Get, mapDelete, hdef]

/-- Witness for C4 at concrete inputs: deleting a recorded address clears
both maps and makes resolution fail (no default configured), and deleting an
absent address leaves both maps untouched. -/
theorem C4_witness :
    (popStore.DeleteIP "A1").rolesByIP "A1" = none ∧
    (popStore.DeleteIP "A1").namespaceByIP "A1" = none ∧
    (popStore.DeleteIP "A1").Get "A1" =
      Except.error ("Unable to find role for IP " ++ "A1") ∧
    (popStore.DeleteIP "A2").rolesByIP = popStore.rolesByIP ∧
    (popStore.DeleteIP "A2").namespaceByIP = popStore.namespaceByIP := by
  refine ⟨(C4_forget popStore "A1").1, (C4_forget popStore "A1").2.1,
    (C4_forget popStore "A1").2.2.2.2 rfl,
    (C4_forget popStore "A2").2.2.1 (by decide),
    (C4_forget popStore "A2").2.2.2.1 (by decide)⟩

/-- Claim C10 (frame effects): `AddRoleToIP` changes only the entry of its
address in the roles-by-IP map, `AddNamespaceToIP` changes only the entry of
its address in the namespace-by-IP map, and `DeleteIP` changes only the
entries of its address in those two maps; every other address and every
pattern collection is unchanged. -/
theorem C10_frame (s : Store) (ip ip2 role ns : String) :
    (ip2 ≠ ip →
      (s.AddRoleToIP ip role).rolesByIP ip2 = s.rolesByIP ip2 ∧
      (s.AddNamespaceToIP ip ns).namespaceByIP ip2 = s.namespaceByIP ip2 ∧
      (s.DeleteIP ip).rolesByIP ip2 = s.rolesByIP ip2 ∧
      (s.DeleteIP ip).namespaceByIP ip2 = s.namespaceByIP ip2) ∧
    (s.AddRoleToIP ip role).namespaceByIP = s.namespaceByIP ∧
    (s.AddRoleToIP ip role).rolesRegexpByNamespace = s.rolesRegexpByNamespace ∧
    (s.AddNamespaceToIP ip ns).rolesByIP = s.rolesByIP ∧
    (s.AddNamespaceToIP ip ns).rolesRegexpByNamespace =
      s.rolesRegexpByNamespace ∧
    (s.DeleteIP ip).rolesRegexpByNamespace = s.rolesRegexpByNamespace := by
  refine ⟨?_, rfl, rfl, rfl, rfl, rfl⟩
  intro h
  refine ⟨?_, ?_, ?_, ?_⟩ <;>
    simp [Store.AddRoleToIP, Store.AddNamespaceToIP, Store.DeleteIP,
      mapUpdate, mapDelete, h]

/-- Witness for C10 at concrete inputs: mutating address `A1` leaves the
entries of address `A2` and the pattern collections unchanged. -/
theorem C10_witness :
    (popStore.AddRoleToIP "A1" "role:w").rolesByIP "A2" = popStore.rolesByIP "A2" ∧
    (popStore.DeleteIP "A1").namespaceByIP "A2" = popStore.namespaceByIP "A2" ∧
    (popStore.AddRoleToIP "A1" "role:w").rolesRegexpByNamespace =
      popStore.rolesRegexpByNamespace := by
  refine ⟨((C10_frame popStore "A1" "A2" "role:w" "payments").1 (by decide)).1,
    ((C10_frame popStore "A1" "A2" "role:w" "payments").1 (by decide)).2.2.2,
    (C10_frame popStore "A1" "A2" "role:w" "payments").2.2.1⟩

/-- Claim C1: `CheckNamespaceRestriction role ip` always reports as its
second component the recorded namespace of the address (empty string when the
address is unknown); it is permissive when restriction is disabled, or when
the role equals the normalized default role; otherwise it permits exactly
when some pattern of the namespace collection matches the role (the scan is
in insertion order with first match winning, which for the boolean outcome
is existence of a matching pattern; an unknown namespace or a namespace with
no patterns yields the empty collection and hence denial). -/
theorem C1_check_restriction (s : Store) (re : RegexEngine)
    (role ip : String) :
    (s.CheckNamespaceRestriction re role ip).2 = (s.namespaceByIP ip).getD "" ∧
    (s.namespaceRestriction = false →
      (s.CheckNamespaceRestriction re role ip).1 = true) ∧
    (s.namespaceRestriction = true → role = s.roleARN s.defaultRole →
      (s.CheckNamespaceRestriction re role ip).1 = true) ∧
    (s.namespaceRestriction = true → role ≠ s.roleARN s.defaultRole →
      ((s.CheckNamespaceRestriction re role ip).1 = true ↔
        ∃ p ∈ (s.rolesRegexpByNamespace ((s.namespaceByIP ip).getD "")).getD [],
          re.matchString p role = true)) := by
  refine ⟨?_, ?_, ?_, ?_⟩
  · cases hr : s.namespaceRestriction <;>
      by_cases hd : role = s.roleARN s.defaultRole <;>
        simp [Store.CheckNamespaceRestriction, hr, hd]
  · intro hr
    simp [Store.CheckNamespaceRestriction, hr]
  · intro hr hd
    simp [Store.CheckNamespaceRestriction, hr, hd]
  · intro hr hd
    simp [Store.CheckNamespaceRestriction, Store.checkRoleForNamespace,
      hr, hd, List.any_eq_true]

/-- Witness for C1 at the scenario of the spec: in `demoStore` (restriction
on, default role `role:default`, address `A1` in namespace `payments` whose
collection holds the single pattern `role:payments-writer`), a matching role
is permitted with tenant `payments`, the default role is permitted, and a
non-matching role is denied with the same tenant reported. -/
theorem C1_witness :
    (demoStore.CheckNamespaceRestriction exactEngine "role:payments-writer"
      "A1").1 = true ∧
    (demoStore.CheckNamespaceRestriction exactEngine "role:payments-writer"
      "A1").2 = "payments" ∧
    (demoStore.CheckNamespaceRestriction exactEngine "role:default" "A1").1 =
      true ∧
    (demoStore.CheckNamespaceRestriction exactEngine "role:other-team"
      "A1").1 = false := by
  refine ⟨?_, ?_, ?_, ?_⟩
  · exact ((C1_check_restriction demoStore exactEngine "role:payments-writer"
      "A1").2.2.2 (by decide) (by decide)).mpr
      ⟨"role:payments-writer", by decide, by decide⟩
  · have h := (C1_check_restriction demoStore exactEngine
      "role:payments-writer" "A1").1
    rw [h]; decide
  · exact (C1_check_restriction demoStore exactEngine "role:default"
      "A1").2.2.1 (by decide) (by decide)
  · have h := (C1_check_restriction demoStore exactEngine "role:other-team"
      "A1").2.2.2 (by decide) (by decide)
    exact Bool.eq_false_iff.mpr (fun ht => (by decide :
      ¬ ∃ p ∈ (demoStore.rolesRegexpByNamespace
        ((demoStore.namespaceByIP "A1").getD "")).getD [],
          exactEngine.matchString p "role:other-team" = true) (h.mp ht))

/-- Claim C6: when the normalized pattern string fails to compile,
`AddRoleToNamespace` leaves the store exactly unchanged (including whether
the namespace has a map entry at all), and its return type surfaces no error
to the caller.  When the pattern is a duplicate the compile step is never
reached and writing the collection back is invisible; when it is new, the
Go code returns before touching the map. -/
theorem C6_bad_pattern_noop (s : Store) (re : RegexEngine) (ns p : String)
    (h : re.compileOk (s.roleARN p) = false) :
    s.AddRoleToNamespace re ns p = s := by
  by_cases hc : ((s.rolesRegexpByNamespace ns).getD []).contains (s.roleARN p) = true
  · have hup : mapUpdate s.rolesRegexpByNamespace ns
        ((s.rolesRegexpByNamespace ns).getD []) = s.rolesRegexpByNamespace :=
      mapUpdate_self _ _ _ (getD_eq_some_of_contains hc)
    simp [Store.AddRoleToNamespace, hc, hup, h]
  · simp [Store.AddRoleToNamespace, hc, h]
    intro hmem
    exact absurd hmem (by simpa using hc)

/-- Witness for C6 at a concrete input: in `parenEngine` the pattern `(`
does not compile (as in Go), so granting it to namespace `t` of the empty
store changes nothing. -/
theorem C6_witness : emptyStore.AddRoleToNamespace parenEngine "t" "(" =
    emptyStore :=
  C6_bad_pattern_noop emptyStore parenEngine "t" "(" (by decide)

/-- Counterexample to C5 as stated: for the pattern `(` (which does not
compile, as in Go) granted twice to namespace `t` of the empty store, the
collection of `t` afterwards has zero entries for the canonical string `(`,
not exactly one. -/
theorem C5_counterexample :
    ¬ ((((emptyStore.AddRoleToNamespace parenEngine "t" "(").AddRoleToNamespace
        parenEngine "t" "(").rolesRegexpByNamespace "t").getD []).count "(" =
      1 := by decide

/-- Claim C5 as amended: `AddRoleToNamespace` is idempotent — the store
after the second identical grant is identical to the store after the first;
and when the normalized pattern either compiles or already appears in the
collection of the namespace (which, by the dedup invariant, holds it at most
once), the collection after the two calls has exactly one entry for that
canonical string.  When the pattern does not compile and is not already
present, both grants are dropped and the collection has no such entry. -/
theorem C5_grant_idempotent (s : Store) (re : RegexEngine) (ns p : String) :
    (s.AddRoleToNamespace re ns p).AddRoleToNamespace re ns p =
      s.AddRoleToNamespace re ns p ∧
    ((re.compileOk (s.roleARN p) = true ∨
        s.roleARN p ∈ (s.rolesRegexpByNamespace ns).getD []) →
      ((s.rolesRegexpByNamespace ns).getD []).count (s.roleARN p) ≤ 1 →
      ((((s.AddRoleToNamespace re ns p).AddRoleToNamespace re ns
          p).rolesRegexpByNamespace ns).getD []).count (s.roleARN p) = 1) := by
  have hid : (s.AddRoleToNamespace re ns p).AddRoleToNamespace re ns p =
      s.AddRoleToNamespace re ns p := by
    by_cases hmem : s.roleARN p ∈ (s.rolesRegexpByNamespace ns).getD []
    · simp [Store.AddRoleToNamespace, hmem, mapUpdate_same,
        mapUpdate_overwrite]
    · by_cases hk : re.compileOk (s.roleARN p) = true
      · simp [Store.AddRoleToNamespace, hmem, hk, mapUpdate_same,
          mapUpdate_overwrite]
      · simp [Store.AddRoleToNamespace, hmem, hk]
  refine ⟨hid, ?_⟩
  intro hor hcount
  rw [hid]
  by_cases hmem : s.roleARN p ∈ (s.rolesRegexpByNamespace ns).getD []
  · have h1 : ((s.AddRoleToNamespace re ns p).rolesRegexpByNamespace ns).getD
        [] = (s.rolesRegexpByNamespace ns).getD [] := by
      simp [Store.AddRoleToNamespace, hmem, mapUpdate_same]
    rw [h1]
    exact Nat.le_antisymm hcount (List.count_pos_iff.mpr hmem)
  · by_cases hk : re.compileOk (s.roleARN p) = true
    · have h1 : ((s.AddRoleToNamespace re ns p).rolesRegexpByNamespace
          ns).getD [] =
          (s.rolesRegexpByNamespace ns).getD [] ++ [s.roleARN p] := by
        simp [Store.AddRoleToNamespace, hmem, hk, mapUpdate_same]
      rw [h1]
      simp [List.count_append, List.count_eq_zero.mpr hmem]
    · rcases hor with hk2 | hmem2
      · exact absurd hk2 hk
      · exact absurd hmem2 hmem

/-- Witness for the amended C5 at a concrete input: granting the compiling
pattern `role:p` twice to namespace `payments` of the empty store leaves
exactly one entry for it. -/
theorem C5_witness :
    ((((emptyStore.AddRoleToNamespace exactEngine "payments"
        "role:p").AddRoleToNamespace exactEngine "payments"
        "role:p").rolesRegexpByNamespace "payments").getD []).count
      (emptyStore.roleARN "role:p") = 1 :=
  (C5_grant_idempotent emptyStore exactEngine "payments" "role:p").2
    (Or.inl (by decide)) (by decide)

/-- Counterexample to C7 as stated: on the empty store, where tenant `t`
has no pattern collection at all, `RemoveRoleFromNamespace` is not a no-op —
it creates a map entry for `t` holding the empty collection (the Go code
writes the collection back unconditionally, and assigning a nil slice to a
missing key creates the key). -/
theorem C7_counterexample :
    (emptyStore.RemoveRoleFromNamespace "t" "p").rolesRegexpByNamespace "t" =
      some [] ∧
    emptyStore.rolesRegexpByNamespace "t" = none := by
  constructor <;> decide

/-- Claim C7 as amended: `RemoveRoleFromNamespace` removes exactly the first
pattern of the collection whose canonical string equals the normalized
pattern, leaving all other patterns in their original relative order; when
the tenant has a collection and no entry matches, the store is exactly
unchanged; but when the tenant has no collection at all, an entry holding
the empty collection is created for it (collections of all tenants are
otherwise unaffected, as is every other store field). -/
theorem C7_revoke (s : Store) (ns p : String) :
    (∀ l₁ l₂, (s.rolesRegexpByNamespace ns).getD [] =
        l₁ ++ s.roleARN p :: l₂ → s.roleARN p ∉ l₁ →
      (s.RemoveRoleFromNamespace ns p).rolesRegexpByNamespace ns =
        some (l₁ ++ l₂)) ∧
    (∀ l, s.rolesRegexpByNamespace ns = some l → s.roleARN p ∉ l →
      s.RemoveRoleFromNamespace ns p = s) ∧
    (s.rolesRegexpByNamespace ns = none →
      (s.RemoveRoleFromNamespace ns p).rolesRegexpByNamespace ns = some []) ∧
    (∀ ns2, ns2 ≠ ns →
      (s.RemoveRoleFromNamespace ns p).rolesRegexpByNamespace ns2 =
        s.rolesRegexpByNamespace ns2) := by
  refine ⟨?_, ?_, ?_, ?_⟩
  · intro l₁ l₂ hsplit hnot
    have herase : ((s.rolesRegexpByNamespace ns).getD []).erase (s.roleARN p) =
        l₁ ++ l₂ := by
      rw [hsplit, List.erase_append_right _ hnot, List.erase_cons_head]
    simp [Store.RemoveRoleFromNamespace, mapUpdate_same, herase]
  · intro l hl hnot
    have herase : ((s.rolesRegexpByNamespace ns).getD []).erase (s.roleARN p) =
        (s.rolesRegexpByNamespace ns).getD [] := by
      rw [hl]
      exact List.erase_of_not_mem hnot
    have hup : mapUpdate s.rolesRegexpByNamespace ns
        ((s.rolesRegexpByNamespace ns).getD []) = s.rolesRegexpByNamespace := by
      apply mapUpdate_self
      rw [hl]
      rfl
    simp [Store.RemoveRoleFromNamespace, herase, hup]
  · intro hnone
    simp [Store.RemoveRoleFromNamespace, mapUpdate_same, hnone]
  · intro ns2 hne
    simp [Store.RemoveRoleFromNamespace, mapUpdate_other _ _ _ _ hne]

/-- Witness for the amended C7 at concrete inputs: revoking `p` from the
collection `x, p, y` of tenant `t` leaves `x, y` in order; revoking the
never-granted `q` leaves the store exactly unchanged; and on a tenant with
no collection an empty entry appears. -/
theorem C7_witness :
    (revokeStore.RemoveRoleFromNamespace "t" "p").rolesRegexpByNamespace "t" =
      some (["x"] ++ ["y"]) ∧
    revokeStore.RemoveRoleFromNamespace "t" "q" = revokeStore ∧
    (revokeStore.RemoveRoleFromNamespace "u" "p").rolesRegexpByNamespace "u" =
      some [] := by
  refine ⟨?_, ?_, ?_⟩
  · exact (C7_revoke revokeStore "t" "p").1 ["x"] ["y"] (by decide) (by decide)
  · exact (C7_revoke revokeStore "t" "q").2.1 ["x", "p", "y"] (by decide)
      (by decide)
  · exact (C7_revoke revokeStore "u" "p").2.2.1 (by decide)

/-- Claim C8, at the failing input: the namespace dump does not return
exactly the pattern strings of the tenant.  In `demoStore` the collection of
`payments` is exactly the single string `role:payments-writer`, yet the dump
entry is a two-element list starting with a spurious empty string, because
the Go loop body allocates the output slice with `make([]string, len(...))`
(length, not capacity) and then appends to it.  The two by-IP accessors do
return their mappings exactly. -/
theorem C8_dump_padding_bug :
    demoStore.rolesRegexpByNamespace "payments" =
      some ["role:payments-writer"] ∧
    demoStore.DumpRolesByNamespace "payments" =
      some ["", "role:payments-writer"] ∧
    demoStore.DumpRolesByIP = demoStore.rolesByIP ∧
    demoStore.DumpNamespaceByIP = demoStore.namespaceByIP := by
  refine ⟨by decide, by decide, rfl, rfl⟩

end Kube2iam
